import Mathlib

/-
  Shallow embedding of the ddcutil display-discovery, initialization and
  option-parsing code found under src/, together with proofs about the
  properties claimed of it.

  The embedded C functions are:
    - ddc_initial_checks_by_dh, all_causes_same_status (ddc_displays.c)
    - ddc_detect_all_displays (display-number assignment loop)
    - is_phantom_display, filter_phantom_displays
    - ddc_get_display_count, ddc_get_filtered_displays
    - ddca_init (api_base.c)
    - parse_maxtrywork (cmd_parser_goption.c)
    - ddca_set_sleep_multiplier (api_base.c)
-/

namespace Ddcutil


/-
  Status codes.  The numeric values of the DDCRC_* codes are defined in
  public/ddcutil_status_codes.h, which is not part of the sources here;
  the embedded code only tests them for equality, so all that matters is
  that the constants are pairwise distinct.  EBUSY is the Linux errno 16;
  the code compares against -EBUSY.
-/

def DDCRC_OK : Int := 0

def DDCRC_NULL_RESPONSE : Int := -3002

def DDCRC_ALL_RESPONSES_NULL : Int := -3021

def DDCRC_RETRIES : Int := -3014

def DDCRC_REPORTED_UNSUPPORTED : Int := -3010

def DDCRC_DETERMINED_UNSUPPORTED : Int := -3023

def DDCRC_INVALID_OPERATION : Int := -3013

def EBUSY : Int := 16

/-
  Display reference communication flags (bits of dref->flags relevant to the
  initial checks).  Each C bit DREF_xxx becomes one Boolean field.
-/

structure DrefFlags where
  communication_checked : Bool := false
  communication_working : Bool := false
  busy : Bool := false
  uses_ddc_flag : Bool := false
  uses_null_response : Bool := false
  uses_mh_ml_sh_sl_zero : Bool := false
  does_not_indicate_unsupported : Bool := false
deriving DecidableEq, Repr

inductive DDCA_IO_Mode where
  | i2c
  | usb
deriving DecidableEq, Repr

/-
  Outcome of one ddc_get_vcp_value / ddc_get_nontable_vcp_value call.
  `ok mh ml sh sl` is a zero status with the four value bytes of the parsed
  response; `err status causes` is a nonzero status whose Error_Info carries
  the given per-attempt cause statuses (relevant when status = DDCRC_RETRIES).
  The C invariant TRACED_ASSERT((psc == 0 && pvalrec) || (psc != 0 && !pvalrec))
  corresponds to the well-formedness predicate `wf` below: an error outcome
  carries a nonzero status.
-/

inductive VcpProbe where
  | ok (mh ml sh sl : Nat)
  | err (status : Int) (causes : List Int)
deriving DecidableEq, Repr

def VcpProbe.status : VcpProbe → Int
  | .ok _ _ _ _ => 0
  | .err s _ => s

def VcpProbe.causes : VcpProbe → List Int
  | .ok _ _ _ _ => []
  | .err _ cs => cs

def VcpProbe.wf : VcpProbe → Prop
  | .ok _ _ _ _ => True
  | .err s _ => s ≠ 0

instance (p : VcpProbe) : Decidable p.wf := by
  cases p <;> simp [VcpProbe.wf] <;> infer_instance

/- all_causes_same_status (ddc_displays.c lines 166-176) -/
def all_causes_same_status (causes : List Int) (psc : Int) : Bool :=
  causes.all (fun c => c = psc)

/-
  The DDCRC_RETRIES collapse applied at ddc_displays.c lines 237-241 and
  267-271: a retries-exhausted status whose causes all have status
  DDCRC_NULL_RESPONSE is replaced by DDCRC_ALL_RESPONSES_NULL.
-/
def collapse_all_null (psc : Int) (causes : List Int) : Int :=
  if psc = DDCRC_RETRIES ∧ all_causes_same_status causes DDCRC_NULL_RESPONSE then
    DDCRC_ALL_RESPONSES_NULL
  else psc

/- value_bytes_zero_for_any_value / value_bytes_zero_for_nontable_value -/
def value_bytes_zero (mh ml sh sl : Nat) : Bool :=
  mh = 0 ∧ ml = 0 ∧ sh = 0 ∧ sl = 0

/-
  The feature-0x10 follow-up probe (ddc_displays.c lines 259-283), entered
  when feature 0x00 returned (all-)null.  `fw` is the flag state with
  communication_working already set.
-/
def ddc_initial_checks_0x10 (fw : DrefFlags) (probe10 : VcpProbe) : DrefFlags :=
  let psc := collapse_all_null probe10.status probe10.causes
  if psc = 0 then
    { fw with uses_null_response := true }
  else if psc = DDCRC_NULL_RESPONSE ∨ psc = DDCRC_ALL_RESPONSES_NULL then
    { fw with communication_working := false }
  else
    { fw with communication_working := false }

/-
  The feature-0x41 follow-up probe (ddc_displays.c lines 291-327), entered
  when feature 0x00 succeeded with all-zero value bytes.  The C code branches
  on psc == 0 first and only then reads the parsed response; under the probe
  well-formedness invariant this is the same as matching on the constructor.
-/
def ddc_initial_checks_0x41 (fw : DrefFlags) (probe41 : VcpProbe) : DrefFlags :=
  match probe41 with
  | .ok mh ml sh sl =>
    if value_bytes_zero mh ml sh sl then
      { fw with uses_mh_ml_sh_sl_zero := true }
    else
      { fw with uses_null_response := true }
  | .err psc _ =>
    if psc = DDCRC_REPORTED_UNSUPPORTED then
      { fw with uses_ddc_flag := true }
    else if psc = DDCRC_ALL_RESPONSES_NULL ∨ psc = DDCRC_NULL_RESPONSE then
      { fw with communication_working := false }
    else
      { fw with communication_working := false }

/-
  ddc_initial_checks_by_dh (ddc_displays.c lines 212-371), as a pure function
  from the incoming dref flags, the io mode, the outcomes of the (up to three)
  VCP probes and the i2c_force_bus option to the resulting dref flags.
  The global ddc_never_uses_null_response_for_unsupported is modelled at its
  default value false.  The vcp-version query done for working displays does
  not touch the flags and is not modelled.
-/
def ddc_initial_checks_by_dh
    (flags : DrefFlags) (io_mode : DDCA_IO_Mode)
    (probe00 probe10 probe41 : VcpProbe) (i2c_force_bus : Bool) : DrefFlags :=
  if flags.communication_checked then
    flags
  else
    let f1 :=
      match io_mode with
      | .usb =>
        if probe00.status = 0 ∨ probe00.status = DDCRC_DETERMINED_UNSUPPORTED then
          { flags with communication_working := true }
        else
          flags
      | .i2c =>
        let psc := collapse_all_null probe00.status probe00.causes
        if psc = DDCRC_NULL_RESPONSE ∨ psc = DDCRC_ALL_RESPONSES_NULL ∨
           psc = 0 ∨ psc = DDCRC_REPORTED_UNSUPPORTED then
          let fw := { flags with communication_working := true }
          if psc = DDCRC_REPORTED_UNSUPPORTED then
            { fw with uses_ddc_flag := true }
          else if psc = DDCRC_NULL_RESPONSE ∨ psc = DDCRC_ALL_RESPONSES_NULL then
            ddc_initial_checks_0x10 fw probe10
          else
            match probe00 with
            | .ok mh ml sh sl =>
              if value_bytes_zero mh ml sh sl then
                ddc_initial_checks_0x41 fw probe41
              else
                { fw with does_not_indicate_unsupported := true }
            | .err _ _ => fw
        else
          if psc = -EBUSY then
            { flags with busy := true }
          else if i2c_force_bus then
            { flags with communication_working := true, uses_ddc_flag := true }
          else
            flags
    { f1 with communication_checked := true }

/- A probe outcome that counts as "null response (or all-retries-null)". -/
def nullish (p : VcpProbe) : Prop :=
  p.status = DDCRC_NULL_RESPONSE ∨
  (p.status = DDCRC_RETRIES ∧ all_causes_same_status p.causes DDCRC_NULL_RESPONSE = true)

instance (p : VcpProbe) : Decidable (nullish p) := by
  unfold nullish; infer_instance

/- Number of "uses ... for unsupported" dialect flags set (the four-element
   set of the spec: uses-ddc-flag, uses-null-response, uses-all-zero-bytes,
   does-not-indicate-unsupported). -/
def dialect_flag_count (f : DrefFlags) : Nat :=
  (if f.uses_ddc_flag then 1 else 0) +
  (if f.uses_null_response then 1 else 0) +
  (if f.uses_mh_ml_sh_sl_zero then 1 else 0) +
  (if f.does_not_indicate_unsupported then 1 else 0)

/-
  Display registry model.

  A Display_Ref as used by display numbering, phantom filtering and the
  display-count functions.  `pedid` carries the EDID identifier fields
  compared by edid_ids_match; `connector` is the result of resolving the
  sysfs connector directory of the device (None when RPT_ATTR_REALPATH
  fails) together with its attributes; `actual_display` is the index, in
  the registry list, of the linked real display (the C code stores a
  pointer into the same GPtrArray).
-/

structure EdidIds where
  mfg_id : String
  model_name : String
  product_code : Nat
  serial_ascii : String
  serial_binary : Nat
deriving DecidableEq, Repr

structure SysfsConnector where
  status : Option String
  enabled : Option String
  edid_present : Bool
deriving DecidableEq, Repr

structure DisplayRef where
  dispno : Int
  io_mode : DDCA_IO_Mode
  pedid : EdidIds
  connector : Option SysfsConnector
  flags : DrefFlags
  actual_display : Option Nat
deriving DecidableEq, Repr

/-
  Display number sentinels.  DISPNO_INVALID and DISPNO_PHANTOM appear with
  their values (-1, -2) in ddc_displays.c comments; DISPNO_BUSY is defined
  in base/displays.h, which is not among the sources here - only its
  negativity is relied on below.
-/

def DISPNO_INVALID : Int := -1

def DISPNO_PHANTOM : Int := -2

def DISPNO_BUSY : Int := -4

/-
  The display-number assignment loop of ddc_detect_all_displays
  (ddc_displays.c lines 856-867).  dispno_max is reset to 0 at the start of
  ddc_detect_all_displays and incremented for each display whose
  DREF_DDC_COMMUNICATION_WORKING flag is set.
-/
def assign_dispnos_go : List DisplayRef → Int → List DisplayRef
  | [], _ => []
  | d :: rest, dispno_max =>
    if d.flags.communication_working then
      { d with dispno := dispno_max + 1 } :: assign_dispnos_go rest (dispno_max + 1)
    else if d.flags.busy then
      { d with dispno := DISPNO_BUSY } :: assign_dispnos_go rest dispno_max
    else
      { d with dispno := DISPNO_INVALID } :: assign_dispnos_go rest dispno_max

def assign_dispnos (ds : List DisplayRef) : List DisplayRef :=
  assign_dispnos_go ds 0

def working_count (ds : List DisplayRef) : Nat :=
  ds.countP (fun d => d.flags.communication_working)

/-
  ddc_get_display_count (ddc_displays.c lines 562-576).  The global
  all_displays is NULL before detection; the counter starts at -1 and is set
  to 0 only once the list exists.
-/
def ddc_get_display_count (all_displays : Option (List DisplayRef))
    (include_invalid_displays : Bool) : Int :=
  match all_displays with
  | none => -1
  | some ds =>
    ds.foldl (fun acc d =>
      if 0 < d.dispno ∨ include_invalid_displays then acc + 1 else acc) 0

/- ddc_get_filtered_displays (ddc_displays.c lines 505-522) -/
def ddc_get_filtered_displays (ds : List DisplayRef)
    (include_invalid_displays : Bool) : List DisplayRef :=
  ds.filter (fun d => include_invalid_displays || decide (0 < d.dispno))

def c3_edid : EdidIds :=
  { mfg_id := "AAA", model_name := "M1", product_code := 1,
    serial_ascii := "1", serial_binary := 1 }

def c3_working_display : DisplayRef :=
  { dispno := 0, io_mode := .i2c, pedid := c3_edid, connector := none,
    flags := { communication_working := true }, actual_display := none }

def c3_busy_display : DisplayRef :=
  { dispno := 0, io_mode := .i2c, pedid := c3_edid, connector := none,
    flags := { busy := true }, actual_display := none }

def c3_dead_display : DisplayRef :=
  { dispno := 0, io_mode := .i2c, pedid := c3_edid, connector := none,
    flags := {}, actual_display := none }

/- edid_ids_match (ddc_displays.c lines 595-604) -/
def edid_ids_match (e1 e2 : EdidIds) : Bool :=
  e1.mfg_id == e2.mfg_id && e1.model_name == e2.model_name &&
  e1.product_code == e2.product_code && e1.serial_ascii == e2.serial_ascii &&
  e1.serial_binary == e2.serial_binary

/-
  is_phantom_display (ddc_displays.c lines 621-669).  The C code starts from
  result = true once the sysfs connector realpath resolves and falsifies it
  on each failing attribute check; the conjunction below is equivalent.
  A missing connector realpath (RPT_ATTR_REALPATH not ok) leaves result false.
-/
def is_phantom_display (invalid_dref valid_dref : DisplayRef) : Bool :=
  if edid_ids_match invalid_dref.pedid valid_dref.pedid then
    if invalid_dref.io_mode == DDCA_IO_Mode.i2c &&
       valid_dref.io_mode == DDCA_IO_Mode.i2c then
      match invalid_dref.connector with
      | none => false
      | some conn =>
        (match conn.status with
         | some s => s == "disconnected"
         | none => false) &&
        (match conn.enabled with
         | some s => s == "disabled"
         | none => false) &&
        !conn.edid_present
    else false
  else false

/-
  filter_phantom_displays (ddc_displays.c lines 689-720).  The C code first
  splits the GPtrArray into the valid refs (dispno >= 0) and the invalid ones
  (dispno < 0), keeping list order; for each invalid ref it scans the valid
  refs in order, and on every is_phantom_display hit overwrites dispno with
  DISPNO_PHANTOM and actual_display with (a pointer to) that valid ref, so
  the last hit wins.  Pointers into the registry are modelled as indices into
  the registry list.  The len-guard around the double loop only skips work
  that would be a no-op.
-/

def validsFrom : Nat → List DisplayRef → List (Nat × DisplayRef)
  | _, [] => []
  | i, d :: rest =>
    if d.dispno < 0 then validsFrom (i + 1) rest
    else (i, d) :: validsFrom (i + 1) rest

def last_phantom_match_from (invalid_ref : DisplayRef)
    (valids : List (Nat × DisplayRef)) (acc : Option Nat) : Option Nat :=
  valids.foldl
    (fun a iv => if is_phantom_display invalid_ref iv.2 then some iv.1 else a) acc

def last_phantom_match (invalid_ref : DisplayRef)
    (valids : List (Nat × DisplayRef)) : Option Nat :=
  last_phantom_match_from invalid_ref valids none

def phantom_update (valids : List (Nat × DisplayRef)) (d : DisplayRef) : DisplayRef :=
  match last_phantom_match d valids with
  | some j => { d with dispno := DISPNO_PHANTOM, actual_display := some j }
  | none => d

def filter_phantom_displays (ds : List DisplayRef) : List DisplayRef :=
  ds.map (fun d =>
    if d.dispno < 0 then phantom_update (validsFrom 0 ds) d else d)

/-
  Reference recursion computing, directly on the registry list, the index of
  the last valid display (dispno >= 0) that is_phantom_display-matches a
  given invalid display - the index the double loop of
  filter_phantom_displays leaves in actual_display.
-/
def last_valid_match (inv : DisplayRef) : List DisplayRef → Option Nat
  | [] => none
  | d :: rest =>
    match last_valid_match inv rest with
    | some j => some (j + 1)
    | none =>
      if ¬ d.dispno < 0 ∧ is_phantom_display inv d = true then some 0 else none

/-
  The phantom claim exactly as stated: for every pair of a non-working
  (dispno < 0) and a working display, the non-working one ends up with
  dispno = DISPNO_PHANTOM and actual_display pointing at the working one
  if and only if the is_phantom_display conditions hold for the pair.
-/
def ClaimC4Prop (ds : List DisplayRef) : Prop :=
  ∀ i j : Fin ds.length,
    (ds.get i).dispno < 0 → 0 < (ds.get j).dispno →
    ((filter_phantom_displays ds).get? i.val =
        some { ds.get i with dispno := DISPNO_PHANTOM,
                             actual_display := some j.val } ↔
      is_phantom_display (ds.get i) (ds.get j) = true)

instance (ds : List DisplayRef) : Decidable (ClaimC4Prop ds) := by
  unfold ClaimC4Prop; infer_instance

def cex_edid : EdidIds :=
  { mfg_id := "AAA", model_name := "M1", product_code := 1,
    serial_ascii := "123", serial_binary := 1 }

def cex_conn : SysfsConnector :=
  { status := some "disconnected", enabled := some "disabled", edid_present := false }

def cex_valid1 : DisplayRef :=
  { dispno := 1, io_mode := .i2c, pedid := cex_edid, connector := none,
    flags := {}, actual_display := none }

def cex_valid2 : DisplayRef :=
  { dispno := 2, io_mode := .i2c, pedid := cex_edid, connector := none,
    flags := {}, actual_display := none }

def cex_invalid : DisplayRef :=
  { dispno := -1, io_mode := .i2c, pedid := cex_edid, connector := some cex_conn,
    flags := {}, actual_display := none }

def cex_registry : List DisplayRef := [cex_valid1, cex_valid2, cex_invalid]

/-
  Library initialization, ddca_init (api_base.c lines 620-706).

  Modelled state: the globals the function assigns - library_initialized,
  syslog_level, enable_syslog, client_opened_syslog.  The syslog level
  constants are declared in public headers not among the sources; only
  their ordering relative to DDCA_SYSLOG_NEVER and the NOT_SET marker are
  used.  Config-file/option parsing plus init_tracing are outside the
  function; their combined outcome is the parameter config_outcome
  (none = success, some e = failure with status e, always nonzero since
  every errinfo_new call there uses a nonzero status).
-/

def DDCA_SYSLOG_NOT_SET : Int := -1

def DDCA_SYSLOG_NEVER : Int := 0

def DEFAULT_LIBDDCUTIL_SYSLOG_LEVEL : Int := 9

structure LibState where
  library_initialized : Bool
  syslog_level : Int
  enable_syslog : Bool
  client_opened_syslog : Bool
deriving DecidableEq, Repr

def ddca_init (st : LibState) (syslog_level_arg : Int)
    (opt_disable_config_file opt_client_opened_syslog libopts_present : Bool)
    (config_outcome : Option Int) : Int × LibState :=
  let arg := if syslog_level_arg = DDCA_SYSLOG_NOT_SET
             then DEFAULT_LIBDDCUTIL_SYSLOG_LEVEL else syslog_level_arg
  let es := if DDCA_SYSLOG_NEVER < arg then true else st.enable_syslog
  let st1 : LibState :=
    { st with client_opened_syslog := opt_client_opened_syslog,
              enable_syslog := es, syslog_level := arg }
  if st.library_initialized then
    (DDCRC_INVALID_OPERATION, st1)
  else
    if opt_disable_config_file ∧ ¬ libopts_present then
      (0, { st1 with library_initialized := true })
    else
      match config_outcome with
      | none => (0, { st1 with library_initialized := true })
      | some e => (e, st1)

/-
  The initialization claim exactly as stated: a second ddca_init returns
  the invalid-operation status without changing library state, and the
  initialized flag becomes true iff the call returns 0.
-/
def ClaimC7Prop : Prop :=
  ∀ (st : LibState) (arg : Int) (dcf cos lp : Bool) (cfg : Option Int),
    (∀ e, cfg = some e → e ≠ 0) →
    (st.library_initialized = true →
      (ddca_init st arg dcf cos lp cfg).1 = DDCRC_INVALID_OPERATION ∧
      (ddca_init st arg dcf cos lp cfg).2 = st) ∧
    (st.library_initialized = false →
      ((ddca_init st arg dcf cos lp cfg).2.library_initialized = true ↔
        (ddca_init st arg dcf cos lp cfg).1 = 0))

def cex_c7_initialized : LibState :=
  LibState.mk true 0 false false

def cex_c7_fresh : LibState :=
  LibState.mk false 0 false false

/-
  Sleep multiplier, ddca_set_sleep_multiplier (api_base.c lines 1118-1136).
  Doubles are modelled as rationals; the function only compares and copies
  them, so the model is exact.  ptd->cur_dh->dref->pdd is collapsed to
  cur_dh : Option PerDisplayData (the function touches nothing else of the
  handle).
-/

structure PerDisplayData where
  user_sleep_multiplier : ℚ
deriving DecidableEq, Repr

structure PerThreadData where
  cur_dh : Option PerDisplayData
deriving DecidableEq, Repr

/-- Modelled from the spec: pdd_reset_multiplier (base/per_display_data.c)
is not among the sources; per the spec, "A user-requested multiplier, when
set, pins `m`" and "setting a user multiplier pins it exactly", so it
records the requested value as the display's user multiplier. -/
def pdd_reset_multiplier (pdd : PerDisplayData) (m : ℚ) : PerDisplayData :=
  { pdd with user_sleep_multiplier := m }

def ddca_set_sleep_multiplier (ptd : PerThreadData) (multiplier : ℚ) :
    ℚ × PerThreadData :=
  if 0 ≤ multiplier ∧ multiplier ≤ 10 then
    match ptd.cur_dh with
    | some pdd =>
      (pdd.user_sleep_multiplier,
        { ptd with cur_dh := some (pdd_reset_multiplier pdd multiplier) })
    | none => (-1, ptd)
  else
    (-1, ptd)

/-
  The sleep-multiplier claim exactly as stated, with the bound [0.1, 10.0]
  of the spec sentence it comes from: the call updates the user multiplier
  and returns the prior value only when a current display handle exists and
  the request is within those bounds, and otherwise returns -1.0 leaving all
  state unchanged.
-/
def ClaimC9Prop : Prop :=
  ∀ (ptd : PerThreadData) (m : ℚ),
    (∀ pdd, ptd.cur_dh = some pdd → 1 / 10 ≤ m → m ≤ 10 →
      (ddca_set_sleep_multiplier ptd m).1 = pdd.user_sleep_multiplier ∧
      (ddca_set_sleep_multiplier ptd m).2.cur_dh
        = some { pdd with user_sleep_multiplier := m }) ∧
    ((ptd.cur_dh = none ∨ ¬ (1 / 10 ≤ m ∧ m ≤ 10)) →
      ddca_set_sleep_multiplier ptd m = (-1, ptd))

/-
  parse_maxtrywork (cmd_parser_goption.c lines 188-237).

  The option value is split on commas; each piece is trimmed and classified:
  a zero-length piece or "." leaves the corresponding class default
  untouched; otherwise sscanf("%ud") either fails (bad) or yields an
  unsigned value stored into a C int, so possibly negative after
  wraparound (num n).  A value above MAX_MAX_TRIES or negative emits an
  error message and latches parsing_ok = false, but the loop continues and
  later valid values are still stored.
-/

inductive MaxtriesToken where
  | num (n : Int)
  | dot
  | empty
  | bad
deriving DecidableEq, Repr

def MAX_MAX_TRIES : Int := 15

def parse_maxtries_go : List MaxtriesToken → Nat → Bool → List Int → Bool × List Int
  | [], _, parsing_ok, max_tries => (parsing_ok, max_tries)
  | t :: rest, ndx, parsing_ok, max_tries =>
    match t with
    | .empty => parse_maxtries_go rest (ndx + 1) parsing_ok max_tries
    | .dot => parse_maxtries_go rest (ndx + 1) parsing_ok max_tries
    | .bad => parse_maxtries_go rest (ndx + 1) false max_tries
    | .num n =>
      if MAX_MAX_TRIES < n then
        parse_maxtries_go rest (ndx + 1) false max_tries
      else if n < 0 then
        parse_maxtries_go rest (ndx + 1) false max_tries
      else
        parse_maxtries_go rest (ndx + 1) parsing_ok (max_tries.set ndx n)

def parse_maxtrywork (tokens : List MaxtriesToken) (max_tries : List Int) :
    Bool × List Int :=
  if tokens.length = 3 then parse_maxtries_go tokens 0 true max_tries
  else (false, max_tries)

/-
  The maxtries claim exactly as stated: every accepted value lies in
  [1, MAX_MAX_TRIES], i.e. a numeric token outside that range makes the
  parse fail.
-/
def ClaimC8Prop : Prop :=
  ∀ (tokens : List MaxtriesToken) (caps : List Int) (i : Nat) (n : Int),
    tokens.get? i = some (MaxtriesToken.num n) →
    ¬ (1 ≤ n ∧ n ≤ MAX_MAX_TRIES) →
    (parse_maxtrywork tokens caps).1 = false

/-- C1: during initial checks on a fresh display handle, (a) a null (or
all-retries-null) Get of feature 0x00 followed by a successful Get of feature
0x10 marks the display working with uses-null-response set; (b) if the 0x10
probe is also null the display is marked not working; (c) a Get of 0x00
succeeding with all-zero value bytes followed by a Get of 0x41 succeeding with
all-zero value bytes sets uses-all-zero-bytes; (d) a 0x41 probe that
reports-unsupported sets uses-ddc-flag. -/
theorem claim_C1 :
    (∀ p00 p10 p41 mh ml sh sl, nullish p00 → p10 = VcpProbe.ok mh ml sh sl →
      (ddc_initial_checks_by_dh {} .i2c p00 p10 p41 false).communication_working = true ∧
      (ddc_initial_checks_by_dh {} .i2c p00 p10 p41 false).uses_null_response = true) ∧
    (∀ p00 p10 p41, nullish p00 → nullish p10 →
      (ddc_initial_checks_by_dh {} .i2c p00 p10 p41 false).communication_working = false) ∧
    (∀ p10,
      (ddc_initial_checks_by_dh {} .i2c (VcpProbe.ok 0 0 0 0) p10
          (VcpProbe.ok 0 0 0 0) false).communication_working = true ∧
      (ddc_initial_checks_by_dh {} .i2c (VcpProbe.ok 0 0 0 0) p10
          (VcpProbe.ok 0 0 0 0) false).uses_mh_ml_sh_sl_zero = true) ∧
    (∀ p10 cs,
      (ddc_initial_checks_by_dh {} .i2c (VcpProbe.ok 0 0 0 0) p10
          (VcpProbe.err DDCRC_REPORTED_UNSUPPORTED cs) false).uses_ddc_flag = true) := by
  refine ⟨?_, ?_, ?_, ?_⟩
  · intro p00 p10 p41 mh ml sh sl h00 h10
    subst h10
    rcases p00 with ⟨a, b, c, d⟩ | ⟨s, cs⟩
    · simp [nullish, VcpProbe.status, DDCRC_NULL_RESPONSE, DDCRC_RETRIES] at h00
    · rcases h00 with h | ⟨hs, hall⟩
      · simp only [VcpProbe.status] at h
        subst h
        constructor <;>
          simp [ddc_initial_checks_by_dh, ddc_initial_checks_0x10, collapse_all_null,
                VcpProbe.status, VcpProbe.causes, all_causes_same_status,
                DDCRC_NULL_RESPONSE, DDCRC_ALL_RESPONSES_NULL, DDCRC_RETRIES,
                DDCRC_REPORTED_UNSUPPORTED]
      · simp only [VcpProbe.status] at hs
        simp only [VcpProbe.causes] at hall
        simp only [DDCRC_NULL_RESPONSE] at hall
        subst hs
        constructor <;>
          simp [ddc_initial_checks_by_dh, ddc_initial_checks_0x10, collapse_all_null,
                VcpProbe.status, VcpProbe.causes, hall,
                DDCRC_NULL_RESPONSE, DDCRC_ALL_RESPONSES_NULL, DDCRC_RETRIES,
                DDCRC_REPORTED_UNSUPPORTED]
  · intro p00 p10 p41 h00 h10
    have main : ∀ fw : DrefFlags,
        (ddc_initial_checks_0x10 fw p10).communication_working = false := by
      intro fw
      rcases p10 with ⟨a, b, c, d⟩ | ⟨s, cs⟩
      · simp [nullish, VcpProbe.status, DDCRC_NULL_RESPONSE, DDCRC_RETRIES] at h10
      · rcases h10 with h | ⟨hs, hall⟩
        · simp only [VcpProbe.status] at h
          subst h
          simp [ddc_initial_checks_0x10, collapse_all_null, VcpProbe.status,
                VcpProbe.causes, DDCRC_NULL_RESPONSE, DDCRC_ALL_RESPONSES_NULL,
                DDCRC_RETRIES]
        · simp only [VcpProbe.status] at hs
          simp only [VcpProbe.causes] at hall
          simp only [DDCRC_NULL_RESPONSE] at hall
          subst hs
          simp [ddc_initial_checks_0x10, collapse_all_null, VcpProbe.status,
                VcpProbe.causes, hall, DDCRC_NULL_RESPONSE, DDCRC_ALL_RESPONSES_NULL,
                DDCRC_RETRIES]
    rcases p00 with ⟨a, b, c, d⟩ | ⟨s, cs⟩
    · simp [nullish, VcpProbe.status, DDCRC_NULL_RESPONSE, DDCRC_RETRIES] at h00
    · rcases h00 with h | ⟨hs, hall⟩
      · simp only [VcpProbe.status] at h
        subst h
        simp [ddc_initial_checks_by_dh, collapse_all_null, VcpProbe.status,
              VcpProbe.causes, DDCRC_NULL_RESPONSE, DDCRC_ALL_RESPONSES_NULL,
              DDCRC_RETRIES, DDCRC_REPORTED_UNSUPPORTED, main]
      · simp only [VcpProbe.status] at hs
        simp only [VcpProbe.causes] at hall
        simp only [DDCRC_NULL_RESPONSE] at hall
        subst hs
        simp [ddc_initial_checks_by_dh, collapse_all_null, VcpProbe.status,
              VcpProbe.causes, hall, DDCRC_NULL_RESPONSE, DDCRC_ALL_RESPONSES_NULL,
              DDCRC_RETRIES, DDCRC_REPORTED_UNSUPPORTED, main]
  · intro p10
    constructor <;>
      simp [ddc_initial_checks_by_dh, ddc_initial_checks_0x41, collapse_all_null,
            VcpProbe.status, VcpProbe.causes, value_bytes_zero,
            DDCRC_NULL_RESPONSE, DDCRC_ALL_RESPONSES_NULL, DDCRC_RETRIES,
            DDCRC_REPORTED_UNSUPPORTED]
  · intro p10 cs
    simp [ddc_initial_checks_by_dh, ddc_initial_checks_0x41, collapse_all_null,
          VcpProbe.status, VcpProbe.causes, value_bytes_zero,
          DDCRC_NULL_RESPONSE, DDCRC_ALL_RESPONSES_NULL, DDCRC_RETRIES,
          DDCRC_REPORTED_UNSUPPORTED]

theorem claim_C1_witness :
    (ddc_initial_checks_by_dh {} .i2c (VcpProbe.err DDCRC_NULL_RESPONSE [])
        (VcpProbe.ok 0 0 0 50) (VcpProbe.ok 0 0 0 0) false).communication_working = true ∧
    (ddc_initial_checks_by_dh {} .i2c (VcpProbe.err DDCRC_NULL_RESPONSE [])
        (VcpProbe.ok 0 0 0 50) (VcpProbe.ok 0 0 0 0) false).uses_null_response = true :=
  claim_C1.1 _ _ (VcpProbe.ok 0 0 0 0) 0 0 0 50 (Or.inl rfl) rfl

/-- C2: a retries-exhausted (DDCRC_RETRIES) result whose per-attempt cause
list consists entirely of DDCRC_NULL_RESPONSE causes is collapsed to
DDCRC_ALL_RESPONSES_NULL by the initial checks; if any cause has a different
status the generic DDCRC_RETRIES code is kept. -/
theorem claim_C2 (causes : List Int) :
    ((∀ c ∈ causes, c = DDCRC_NULL_RESPONSE) →
      collapse_all_null DDCRC_RETRIES causes = DDCRC_ALL_RESPONSES_NULL) ∧
    ((∃ c ∈ causes, c ≠ DDCRC_NULL_RESPONSE) →
      collapse_all_null DDCRC_RETRIES causes = DDCRC_RETRIES) := by
  constructor
  · intro h
    have hall : all_causes_same_status causes DDCRC_NULL_RESPONSE = true := by
      simp only [all_causes_same_status, List.all_eq_true, decide_eq_true_eq]
      exact h
    simp [collapse_all_null, hall]
  · rintro ⟨c, hc, hne⟩
    have hnot : ¬ (all_causes_same_status causes DDCRC_NULL_RESPONSE = true) := by
      simp only [all_causes_same_status, List.all_eq_true, decide_eq_true_eq]
      push_neg
      exact ⟨c, hc, hne⟩
    simp only [collapse_all_null]
    exact if_neg (fun hcond => hnot hcond.2)

theorem claim_C2_witness :
    collapse_all_null DDCRC_RETRIES [DDCRC_NULL_RESPONSE, DDCRC_NULL_RESPONSE] =
      DDCRC_ALL_RESPONSES_NULL ∧
    collapse_all_null DDCRC_RETRIES [DDCRC_NULL_RESPONSE, DDCRC_OK] = DDCRC_RETRIES :=
  ⟨(claim_C2 _).1 (by decide), (claim_C2 _).2 ⟨DDCRC_OK, by decide, by decide⟩⟩

/-- C6 counterexample: a USB display whose feature-0x00 probe succeeds is
marked working by the initial checks with none of the four unsupported-dialect
flags set, so the claim that every display marked working ends with exactly
one of them does not hold as stated. -/
theorem claim_C6_counterexample :
    (ddc_initial_checks_by_dh {} .usb (VcpProbe.ok 0 0 0 50) (VcpProbe.ok 0 0 0 0)
        (VcpProbe.ok 0 0 0 0) false).communication_working = true ∧
    dialect_flag_count (ddc_initial_checks_by_dh {} .usb (VcpProbe.ok 0 0 0 50)
        (VcpProbe.ok 0 0 0 0) (VcpProbe.ok 0 0 0 0) false) ≠ 1 := by
  decide

/-- C6 (amended): for an I2C display starting unchecked with no dialect flags,
whatever the probe outcomes (well-formed: an error outcome has nonzero status)
and the i2c_force_bus setting, if the working flag is set at the end of the
initial checks then exactly one of {uses-ddc-flag, uses-null-response,
uses-all-zero-bytes, does-not-indicate-unsupported} is set, and the checked
flag is set whenever the working flag is. -/
theorem claim_C6 (p00 p10 p41 : VcpProbe) (force : Bool)
    (h00 : p00.wf) (h10 : p10.wf) (h41 : p41.wf) :
    ((ddc_initial_checks_by_dh {} .i2c p00 p10 p41 force).communication_working = true →
      dialect_flag_count (ddc_initial_checks_by_dh {} .i2c p00 p10 p41 force) = 1) ∧
    ((ddc_initial_checks_by_dh {} .i2c p00 p10 p41 force).communication_working = true →
      (ddc_initial_checks_by_dh {} .i2c p00 p10 p41 force).communication_checked = true) := by
  have hchecked : (ddc_initial_checks_by_dh {} .i2c p00 p10 p41 force).communication_checked
      = true := by
    simp [ddc_initial_checks_by_dh]
  refine ⟨?_, fun _ => hchecked⟩
  have step41 : ∀ p : VcpProbe, p.wf →
      ((ddc_initial_checks_0x41 { communication_working := true } p).communication_working
          = true →
        dialect_flag_count (ddc_initial_checks_0x41 { communication_working := true } p)
          = 1) := by
    intro p hp
    rcases p with ⟨a, b, c, d⟩ | ⟨s, cs⟩
    · by_cases hz : value_bytes_zero a b c d = true <;>
        simp [ddc_initial_checks_0x41, hz, dialect_flag_count]
    · simp only [ddc_initial_checks_0x41]
      split_ifs <;> simp [dialect_flag_count]
  have step10 :
      ((ddc_initial_checks_0x10 { communication_working := true } p10).communication_working
          = true →
        dialect_flag_count (ddc_initial_checks_0x10 { communication_working := true } p10)
          = 1) := by
    simp only [ddc_initial_checks_0x10]
    split_ifs <;> simp [dialect_flag_count]
  intro hwork
  rcases p00 with ⟨a, b, c, d⟩ | ⟨s, cs⟩
  · revert hwork
    have hcol : collapse_all_null (VcpProbe.ok a b c d).status
        (VcpProbe.ok a b c d).causes = 0 := by
      simp [collapse_all_null, VcpProbe.status, VcpProbe.causes, all_causes_same_status,
            DDCRC_RETRIES]
    simp only [ddc_initial_checks_by_dh, hcol]
    by_cases hz : value_bytes_zero a b c d = true
    · simp only [hz, DDCRC_NULL_RESPONSE, DDCRC_ALL_RESPONSES_NULL,
                 DDCRC_REPORTED_UNSUPPORTED]
      norm_num
      intro hwork
      exact step41 p41 h41 hwork
    · simp only [hz, DDCRC_NULL_RESPONSE, DDCRC_ALL_RESPONSES_NULL,
                 DDCRC_REPORTED_UNSUPPORTED]
      norm_num
      simp [dialect_flag_count]
  · revert hwork
    simp only [ddc_initial_checks_by_dh, VcpProbe.status, VcpProbe.causes]
    norm_num
    split_ifs with hset hrep hnull hbusy hforce <;> intro hwork
    · simp [dialect_flag_count]
    · exact step10 hwork
    · -- psc is in the working set but is neither reported-unsupported nor
      -- (all-)null, hence zero; collapse_all_null never returns 0 from a
      -- nonzero status, contradicting probe well-formedness.
      exfalso
      have hzero : collapse_all_null s cs = 0 := by
        rcases hset with h | h | h | h
        · exact absurd (Or.inl h) hnull
        · exact absurd (Or.inr h) hnull
        · exact h
        · exact absurd h hrep
      revert hzero
      simp only [collapse_all_null]
      split_ifs
      · simp [DDCRC_ALL_RESPONSES_NULL]
      · exact fun h => h00 h
    · simp at hwork
    · simp [dialect_flag_count]
    · simp at hwork

theorem assign_dispnos_go_length (ds : List DisplayRef) (m : Int) :
    (assign_dispnos_go ds m).length = ds.length := by
  induction ds generalizing m with
  | nil => simp [assign_dispnos_go]
  | cons d rest ih =>
    simp only [assign_dispnos_go]
    split_ifs <;> simp [ih]

theorem assign_dispnos_go_get? (ds : List DisplayRef) (m : Int) (i : Nat) :
    ((assign_dispnos_go ds m).get? i).map (fun d => d.dispno) =
      (ds.get? i).map (fun d =>
        if d.flags.communication_working then m + (working_count (ds.take (i + 1)) : Int)
        else if d.flags.busy then DISPNO_BUSY
        else DISPNO_INVALID) := by
  induction ds generalizing m i with
  | nil => simp [assign_dispnos_go]
  | cons d rest ih =>
    cases i with
    | zero =>
      simp only [assign_dispnos_go, working_count, List.take_succ_cons, List.take_zero,
                 List.countP_cons, List.countP_nil]
      split_ifs with hw hb
      · simp [hw]
      · simp [hw, hb]
      · simp [hw, hb]
    | succ i =>
      have hwc : working_count ((d :: rest).take (i + 1 + 1))
          = working_count (rest.take (i + 1))
            + (if d.flags.communication_working then 1 else 0) := by
        simp [working_count, List.take_succ_cons, List.countP_cons]
      simp only [assign_dispnos_go]
      split_ifs with hw hb <;>
        (rw [List.get?_cons_succ, List.get?_cons_succ, ih]
         cases h : rest.get? i with
         | none => simp
         | some a =>
            simp only [Option.map_some', Option.some.injEq]
            rw [hwc]
            by_cases ha : a.flags.communication_working = true <;>
              simp [ha, hw] <;> push_cast <;> omega)

theorem working_count_take_pos (ds : List DisplayRef) (i : Nat) (d : DisplayRef)
    (hget : ds.get? i = some d) (hw : d.flags.communication_working = true) :
    0 < working_count (ds.take (i + 1)) := by
  induction ds generalizing i with
  | nil => simp at hget
  | cons d0 rest ih =>
    cases i with
    | zero =>
      simp only [List.get?_cons_zero, Option.some.injEq] at hget
      subst hget
      simp [working_count, List.countP_cons, hw]
    | succ i =>
      simp only [List.get?_cons_succ] at hget
      have := ih i hget
      simp only [working_count, List.take_succ_cons, List.countP_cons] at *
      omega

/-- C3: after the discovery scan, in list order, every display whose
communication-working flag is set is assigned the next positive integer as
its display number (the display at index i gets the number of working
displays among the first i+1, so the numbers start at 1 and have no gaps),
and every display whose working flag is not set gets DISPNO_BUSY if its busy
flag is set and DISPNO_INVALID = -1 otherwise. -/
theorem claim_C3 (ds : List DisplayRef) (i : Nat) :
    (assign_dispnos ds).length = ds.length ∧
    ((assign_dispnos ds).get? i).map (fun d => d.dispno) =
      (ds.get? i).map (fun d =>
        if d.flags.communication_working then (working_count (ds.take (i + 1)) : Int)
        else if d.flags.busy then DISPNO_BUSY
        else DISPNO_INVALID) ∧
    (∀ d, ds.get? i = some d → d.flags.communication_working = true →
      0 < working_count (ds.take (i + 1))) := by
  refine ⟨assign_dispnos_go_length ds 0, ?_, fun d hd hw => working_count_take_pos ds i d hd hw⟩
  have h := assign_dispnos_go_get? ds 0 i
  simpa using h

theorem display_count_foldl (ds : List DisplayRef) (b : Bool) (acc : Int) :
    ds.foldl (fun acc d => if 0 < d.dispno ∨ b then acc + 1 else acc) acc =
      acc + (ds.countP (fun d => b || decide (0 < d.dispno)) : Int) := by
  induction ds generalizing acc with
  | nil => simp
  | cons d rest ih =>
    simp only [List.foldl_cons, List.countP_cons, ih]
    by_cases hd : 0 < d.dispno <;> cases b <;> simp [hd] <;> push_cast <;> omega

/-- C10: before display detection ddc_get_display_count returns -1 (not 0);
after detection, for each value of the include-invalid-displays flag, the
count equals the length of the list returned by ddc_get_filtered_displays
with the same flag - the number of displays with dispno > 0 when the flag is
false and the number of all detected displays when it is true. -/
theorem claim_C10 (ds : List DisplayRef) (b : Bool) :
    ddc_get_display_count none b = -1 ∧
    ddc_get_display_count (some ds) b =
      ((ddc_get_filtered_displays ds b).length : Int) ∧
    ddc_get_display_count (some ds) false =
      ((ds.filter (fun d => decide (0 < d.dispno))).length : Int) ∧
    ddc_get_display_count (some ds) true = (ds.length : Int) := by
  have base : ∀ b' : Bool, ddc_get_display_count (some ds) b' =
      ((ddc_get_filtered_displays ds b').length : Int) := by
    intro b'
    simp only [ddc_get_display_count, ddc_get_filtered_displays,
               display_count_foldl, ← List.countP_eq_length_filter]
    simp
  refine ⟨rfl, base b, ?_, ?_⟩
  · simpa [ddc_get_filtered_displays] using base false
  · rw [base true]
    simp [ddc_get_filtered_displays]

theorem claim_C3_witness :
    ((assign_dispnos [c3_working_display, c3_busy_display, c3_dead_display]).get? 1).map
      (fun d => d.dispno) = some DISPNO_BUSY := by
  rw [(claim_C3 [c3_working_display, c3_busy_display, c3_dead_display] 1).2.1]
  decide

theorem phantom_update_io_mode (vs : List (Nat × DisplayRef)) (d : DisplayRef) :
    (phantom_update vs d).io_mode = d.io_mode := by
  unfold phantom_update
  cases last_phantom_match d vs <;> rfl

theorem phantom_update_pedid (vs : List (Nat × DisplayRef)) (d : DisplayRef) :
    (phantom_update vs d).pedid = d.pedid := by
  unfold phantom_update
  cases last_phantom_match d vs <;> rfl

theorem phantom_update_connector (vs : List (Nat × DisplayRef)) (d : DisplayRef) :
    (phantom_update vs d).connector = d.connector := by
  unfold phantom_update
  cases last_phantom_match d vs <;> rfl

theorem is_phantom_display_update (vs : List (Nat × DisplayRef)) (d v : DisplayRef) :
    is_phantom_display (phantom_update vs d) v = is_phantom_display d v := by
  unfold is_phantom_display
  rw [phantom_update_pedid, phantom_update_io_mode, phantom_update_connector]

theorem phantom_update_dispno_neg (vs : List (Nat × DisplayRef)) (d : DisplayRef)
    (h : d.dispno < 0) : (phantom_update vs d).dispno < 0 := by
  unfold phantom_update
  cases last_phantom_match d vs
  · exact h
  · simp [DISPNO_PHANTOM]

theorem last_phantom_match_from_congr (d d' : DisplayRef)
    (h : ∀ v : DisplayRef, is_phantom_display d' v = is_phantom_display d v)
    (vs : List (Nat × DisplayRef)) (acc : Option Nat) :
    last_phantom_match_from d' vs acc = last_phantom_match_from d vs acc := by
  simp only [last_phantom_match_from, h]

theorem phantom_update_idem (vs : List (Nat × DisplayRef)) (d : DisplayRef) :
    phantom_update vs (phantom_update vs d) = phantom_update vs d := by
  have hmatch : last_phantom_match (phantom_update vs d) vs = last_phantom_match d vs :=
    last_phantom_match_from_congr d (phantom_update vs d)
      (fun v => is_phantom_display_update vs d v) vs none
  cases h : last_phantom_match d vs with
  | none =>
    have hd : phantom_update vs d = d := by
      unfold phantom_update
      rw [h]
    simp only [hd]
  | some j =>
    have hd : phantom_update vs d
        = { d with dispno := DISPNO_PHANTOM, actual_display := some j } := by
      unfold phantom_update
      rw [h]
    have hm2 : last_phantom_match
        { d with dispno := DISPNO_PHANTOM, actual_display := some j } vs = some j := by
      rw [← hd, hmatch, h]
    rw [hd]
    unfold phantom_update
    rw [hm2]

theorem validsFrom_map_invariant (u : DisplayRef → DisplayRef)
    (hneg : ∀ d, d.dispno < 0 → (u d).dispno < 0)
    (hpos : ∀ d, ¬ d.dispno < 0 → u d = d)
    (ds : List DisplayRef) (n : Nat) :
    validsFrom n (ds.map u) = validsFrom n ds := by
  induction ds generalizing n with
  | nil => rfl
  | cons d rest ih =>
    simp only [List.map_cons, validsFrom]
    by_cases hd : d.dispno < 0
    · rw [if_pos (hneg d hd), if_pos hd, ih]
    · rw [if_neg (by rw [hpos d hd]; exact hd), if_neg hd, hpos d hd, ih]

/-- C5: applying the phantom filter twice yields the same registry state
(display numbers and actual-display links) as applying it once. -/
theorem claim_C5 (ds : List DisplayRef) :
    filter_phantom_displays (filter_phantom_displays ds) = filter_phantom_displays ds := by
  unfold filter_phantom_displays
  have hu : validsFrom 0 (ds.map (fun d =>
      if d.dispno < 0 then phantom_update (validsFrom 0 ds) d else d)) = validsFrom 0 ds := by
    refine validsFrom_map_invariant _ ?_ ?_ ds 0
    · intro d hd
      rw [if_pos hd]
      exact phantom_update_dispno_neg _ d hd
    · intro d hd
      rw [if_neg hd]
  rw [hu, List.map_map]
  refine List.map_congr_left ?_
  intro d _
  simp only [Function.comp_apply]
  by_cases hd : d.dispno < 0
  · rw [if_pos hd, if_pos (phantom_update_dispno_neg _ d hd), phantom_update_idem]
  · rw [if_neg hd, if_neg hd]

theorem last_phantom_match_from_validsFrom (inv : DisplayRef) (ds : List DisplayRef)
    (n : Nat) (acc : Option Nat) :
    last_phantom_match_from inv (validsFrom n ds) acc =
      match last_valid_match inv ds with
      | some j => some (j + n)
      | none => acc := by
  induction ds generalizing n acc with
  | nil => rfl
  | cons d rest ih =>
    by_cases hd : d.dispno < 0
    · rw [validsFrom, if_pos hd, ih]
      simp only [last_valid_match]
      cases hr : last_valid_match inv rest with
      | none =>
        rw [if_neg (fun hc => hc.1 hd)]
      | some j =>
        show some (j + (n + 1)) = some (j + 1 + n)
        congr 1
        omega
    · rw [validsFrom, if_neg hd]
      rw [show last_phantom_match_from inv ((n, d) :: validsFrom (n + 1) rest) acc
            = last_phantom_match_from inv (validsFrom (n + 1) rest)
                (if is_phantom_display inv d then some n else acc) from rfl, ih]
      simp only [last_valid_match]
      cases hr : last_valid_match inv rest with
      | none =>
        by_cases hm : is_phantom_display inv d = true
        · rw [if_pos (show ¬ d.dispno < 0 ∧ is_phantom_display inv d = true from ⟨hd, hm⟩)]
          show (if is_phantom_display inv d then some n else acc) = some (0 + n)
          rw [if_pos hm]
          congr 1
          omega
        · rw [if_neg (show ¬ (¬ d.dispno < 0 ∧ is_phantom_display inv d = true) from
              fun hc => hm hc.2)]
          show (if is_phantom_display inv d then some n else acc) = acc
          rw [if_neg hm]
      | some j =>
        show some (j + (n + 1)) = some (j + 1 + n)
        congr 1
        omega

theorem last_valid_match_none_iff (inv : DisplayRef) (ds : List DisplayRef) :
    last_valid_match inv ds = none ↔
      ∀ k dk, ds.get? k = some dk → ¬ dk.dispno < 0 →
        is_phantom_display inv dk = false := by
  induction ds with
  | nil => simp [last_valid_match]
  | cons d rest ih =>
    constructor
    · intro h k dk hget hvalid
      cases hr : last_valid_match inv rest with
      | some j =>
        rw [last_valid_match, hr] at h
        simp at h
      | none =>
        have hcond : ¬ (¬ d.dispno < 0 ∧ is_phantom_display inv d = true) := by
          intro hc
          rw [last_valid_match, hr, if_pos hc] at h
          simp at h
        cases k with
        | zero =>
          simp only [List.get?_cons_zero, Option.some.injEq] at hget
          subst hget
          cases hm : is_phantom_display inv d
          · rfl
          · exact absurd ⟨hvalid, hm⟩ hcond
        | succ k =>
          simp only [List.get?_cons_succ] at hget
          exact ih.mp hr k dk hget hvalid
    · intro h
      have hr : last_valid_match inv rest = none :=
        ih.mpr (fun k dk hget hv => h (k + 1) dk (by simpa using hget) hv)
      rw [last_valid_match, hr, if_neg]
      intro hc
      exact absurd (h 0 d rfl hc.1) (by simp [hc.2])

theorem last_valid_match_some_iff (inv : DisplayRef) (ds : List DisplayRef) (j : Nat) :
    last_valid_match inv ds = some j ↔
      ((∃ dj, ds.get? j = some dj ∧ ¬ dj.dispno < 0 ∧
          is_phantom_display inv dj = true) ∧
        ∀ k dk, j < k → ds.get? k = some dk → ¬ dk.dispno < 0 →
          is_phantom_display inv dk = false) := by
  induction ds generalizing j with
  | nil => simp [last_valid_match]
  | cons d rest ih =>
    cases hr : last_valid_match inv rest with
    | some j' =>
      rw [last_valid_match, hr]
      obtain ⟨⟨dj', hget', hv', hm'⟩, hlater'⟩ := (ih j').mp hr
      constructor
      · intro h
        simp only [Option.some.injEq] at h
        subst h
        refine ⟨⟨dj', by simpa using hget', hv', hm'⟩, ?_⟩
        intro k dk hk hget hv
        cases k with
        | zero => omega
        | succ k =>
          simp only [List.get?_cons_succ] at hget
          exact hlater' k dk (by omega) hget hv
      · rintro ⟨⟨dj, hget, hv, hm⟩, hlater⟩
        cases j with
        | zero =>
          simp only [List.get?_cons_zero, Option.some.injEq] at hget
          exact absurd (hlater (j' + 1) dj' (by omega) (by simpa using hget') hv')
            (by simp [hm'])
        | succ k =>
          simp only [List.get?_cons_succ] at hget
          have hlvm : last_valid_match inv rest = some k :=
            (ih k).mpr ⟨⟨dj, hget, hv, hm⟩,
              fun k' dk' hk' hget' hv' =>
                hlater (k' + 1) dk' (by omega) (by simpa using hget') hv'⟩
          have hkj : k = j' := by
            rw [hr] at hlvm
            simpa using hlvm.symm
          show some (j' + 1) = some (k + 1)
          simp [hkj]
    | none =>
      rw [last_valid_match, hr]
      have hnone := (last_valid_match_none_iff inv rest).mp hr
      by_cases hc : ¬ d.dispno < 0 ∧ is_phantom_display inv d = true
      · rw [if_pos hc]
        constructor
        · intro h
          simp only [Option.some.injEq] at h
          subst h
          refine ⟨⟨d, rfl, hc.1, hc.2⟩, ?_⟩
          intro k dk hk hget hv
          cases k with
          | zero => omega
          | succ k =>
            simp only [List.get?_cons_succ] at hget
            exact hnone k dk hget hv
        · rintro ⟨⟨dj, hget, hv, hm⟩, hlater⟩
          cases j with
          | zero => rfl
          | succ k =>
            simp only [List.get?_cons_succ] at hget
            exact absurd (hnone k dj hget hv) (by simp [hm])
      · rw [if_neg hc]
        constructor
        · intro h
          simp at h
        · rintro ⟨⟨dj, hget, hv, hm⟩, hlater⟩
          exfalso
          cases j with
          | zero =>
            simp only [List.get?_cons_zero, Option.some.injEq] at hget
            subst hget
            exact hc ⟨hv, hm⟩
          | succ k =>
            simp only [List.get?_cons_succ] at hget
            exact absurd (hnone k dj hget hv) (by simp [hm])

theorem last_phantom_match_eq_last_valid_match (inv : DisplayRef)
    (ds : List DisplayRef) :
    last_phantom_match inv (validsFrom 0 ds) = last_valid_match inv ds := by
  rw [last_phantom_match, last_phantom_match_from_validsFrom]
  cases last_valid_match inv ds <;> simp

/-- C4 counterexample: in a registry with two working displays and one
non-working display all sharing the same EDID identifiers, the phantom
conditions hold for the pair (non-working, first working display), yet the
non-working display is linked to the second working display (the last match
wins in filter_phantom_displays), so the claimed equivalence fails for that
pair. -/
theorem claim_C4_counterexample : ¬ ClaimC4Prop cex_registry := by
  decide

/-- C4 (amended): a non-working display (dispno < 0, not already marked
phantom) is marked phantom with dispno = DISPNO_PHANTOM and linked to working
display j if and only if the is_phantom_display conditions hold for the pair
and for no display after j that is working do they also hold (the last
matching working display wins); working displays are left unchanged by the
filter. -/
theorem claim_C4 (ds : List DisplayRef) (i j : Nat) (di dj : DisplayRef)
    (hi : ds.get? i = some di) (hj : ds.get? j = some dj)
    (hneg : di.dispno < 0) (hnp : di.dispno ≠ DISPNO_PHANTOM)
    (hpos : ¬ dj.dispno < 0) :
    ((filter_phantom_displays ds).get? j = some dj) ∧
    (((filter_phantom_displays ds).get? i =
        some { di with dispno := DISPNO_PHANTOM, actual_display := some j }) ↔
      (is_phantom_display di dj = true ∧
        ∀ k dk, j < k → ds.get? k = some dk → ¬ dk.dispno < 0 →
          is_phantom_display di dk = false)) := by
  constructor
  · rw [filter_phantom_displays, List.get?_map, hj]
    simp [if_neg hpos]
  · rw [filter_phantom_displays, List.get?_map, hi]
    simp only [Option.map_some', if_pos hneg, Option.some.injEq]
    rw [phantom_update, last_phantom_match_eq_last_valid_match]
    cases hv : last_valid_match di ds with
    | some j' =>
      obtain ⟨⟨dj', hget', hv', hm'⟩, hlater'⟩ := (last_valid_match_some_iff di ds j').mp hv
      constructor
      · intro heq
        have hj' : j' = j := by
          have := congrArg DisplayRef.actual_display heq
          simpa using this
        subst hj'
        have : dj' = dj := by
          rw [hget'] at hj
          simpa using hj
        subst this
        exact ⟨hm', hlater'⟩
      · rintro ⟨hm, hlater⟩
        have : last_valid_match di ds = some j :=
          (last_valid_match_some_iff di ds j).mpr ⟨⟨dj, hj, hpos, hm⟩, hlater⟩
        rw [hv] at this
        have hj' : j' = j := by simpa using this
        subst hj'
        rfl
    | none =>
      have hnone := (last_valid_match_none_iff di ds).mp hv
      constructor
      · intro heq
        have := congrArg DisplayRef.dispno heq
        simp at this
        exact absurd this hnp
      · rintro ⟨hm, hlater⟩
        exact absurd (hnone j dj hj hpos) (by simp [hm])

theorem claim_C4_witness :
    (filter_phantom_displays cex_registry).get? 1 = some cex_valid2 :=
  (claim_C4 cex_registry 2 1 cex_invalid cex_valid2 rfl rfl (by decide) (by decide)
    (by decide)).1

/-- C7 counterexample: calling ddca_init a second time with syslog level 5 on
a library whose stored syslog level is 0 returns invalid-operation but still
overwrites the stored syslog level (the assignments at the top of ddca_init
run before the already-initialized check), so the call does not leave the
library state unchanged. -/
theorem claim_C7_counterexample : ¬ ClaimC7Prop := by
  intro h
  have hc := (h cex_c7_initialized 5 false false false none
      (fun e he => by simp at he)).1 rfl
  have h5 : (ddca_init cex_c7_initialized 5 false false false none).2.syslog_level
      = 5 := by decide
  rw [hc.2] at h5
  simp [cex_c7_initialized] at h5

/-- C7 (amended): a second ddca_init while initialized returns the
invalid-operation status code and leaves the library-initialized flag set
(though the syslog settings are still updated before the check); when the
library is not initialized, the flag becomes true if and only if ddca_init
returns status 0. -/
theorem claim_C7 (st : LibState) (arg : Int) (dcf cos lp : Bool)
    (cfg : Option Int) (hcfg : ∀ e, cfg = some e → e ≠ 0) :
    (st.library_initialized = true →
      (ddca_init st arg dcf cos lp cfg).1 = DDCRC_INVALID_OPERATION ∧
      (ddca_init st arg dcf cos lp cfg).2.library_initialized = true) ∧
    (st.library_initialized = false →
      ((ddca_init st arg dcf cos lp cfg).2.library_initialized = true ↔
        (ddca_init st arg dcf cos lp cfg).1 = 0)) := by
  constructor
  · intro hinit
    simp [ddca_init, hinit]
  · intro hinit
    simp only [ddca_init, hinit, Bool.false_eq_true, if_false]
    cases hcfgv : cfg with
    | none => cases dcf <;> cases lp <;> simp
    | some e =>
      have hne : e ≠ 0 := hcfg e hcfgv
      cases dcf <;> cases lp <;> simp [hne]

theorem claim_C7_witness :
    (ddca_init cex_c7_fresh 5 false false false none).2.library_initialized = true :=
  ((claim_C7 cex_c7_fresh 5 false false false none
      (fun e he => by simp at he)).2 rfl).mpr (by decide)

/-- C9 counterexample: with a current display handle whose user multiplier
is 3, requesting multiplier 0 is below the claimed lower bound 0.1, yet the
code (which tests 0.0 <= multiplier <= 10.0) updates the multiplier and
returns the prior value 3 instead of -1.0 with unchanged state. -/
theorem claim_C9_counterexample : ¬ ClaimC9Prop := by
  intro h
  have hc := (h { cur_dh := some { user_sleep_multiplier := 3 } } 0).2
    (Or.inr (fun hb => by norm_num at hb))
  have h3 : (ddca_set_sleep_multiplier
      { cur_dh := some { user_sleep_multiplier := 3 } } 0).1 = 3 := by
    norm_num [ddca_set_sleep_multiplier, pdd_reset_multiplier]
  rw [hc] at h3
  norm_num at h3

/-- C9 (amended): ddca_set_sleep_multiplier accepts exactly the requests in
[0.0, 10.0]: with a current display handle and a request in that range it
pins the user multiplier to exactly the requested value and returns the
prior one; without a handle, or with a request outside [0.0, 10.0], it
returns -1.0 and leaves all state unchanged; consequently the stored user
multiplier is only ever replaced by a value in [0.0, 10.0]. -/
theorem claim_C9 (ptd : PerThreadData) (m : ℚ) :
    (∀ pdd, ptd.cur_dh = some pdd → 0 ≤ m → m ≤ 10 →
      (ddca_set_sleep_multiplier ptd m).1 = pdd.user_sleep_multiplier ∧
      (ddca_set_sleep_multiplier ptd m).2.cur_dh
        = some { pdd with user_sleep_multiplier := m }) ∧
    (ptd.cur_dh = none → ddca_set_sleep_multiplier ptd m = (-1, ptd)) ∧
    (¬ (0 ≤ m ∧ m ≤ 10) → ddca_set_sleep_multiplier ptd m = (-1, ptd)) ∧
    (∀ pdd0 pdd, ptd.cur_dh = some pdd0 →
      (ddca_set_sleep_multiplier ptd m).2.cur_dh = some pdd →
      pdd.user_sleep_multiplier = pdd0.user_sleep_multiplier ∨
      (0 ≤ pdd.user_sleep_multiplier ∧ pdd.user_sleep_multiplier ≤ 10)) := by
  refine ⟨?_, ?_, ?_, ?_⟩
  · intro pdd hdh h0 h10
    simp [ddca_set_sleep_multiplier, pdd_reset_multiplier, hdh, h0, h10]
  · intro hdh
    simp only [ddca_set_sleep_multiplier, hdh]
    split_ifs <;> rfl
  · intro hb
    simp [ddca_set_sleep_multiplier, hb]
  · intro pdd0 pdd hdh hres
    by_cases hb : 0 ≤ m ∧ m ≤ 10
    · simp only [ddca_set_sleep_multiplier, if_pos hb, hdh, pdd_reset_multiplier] at hres
      simp only [Option.some.injEq] at hres
      subst hres
      exact Or.inr hb
    · simp only [ddca_set_sleep_multiplier, if_neg hb] at hres
      rw [hdh] at hres
      simp only [Option.some.injEq] at hres
      subst hres
      exact Or.inl rfl

theorem claim_C9_witness :
    (ddca_set_sleep_multiplier
        { cur_dh := some { user_sleep_multiplier := 3 } } 2).1 = 3 ∧
    (ddca_set_sleep_multiplier
        { cur_dh := some { user_sleep_multiplier := 3 } } 2).2.cur_dh
      = some { user_sleep_multiplier := 2 } :=
  (claim_C9 { cur_dh := some { user_sleep_multiplier := 3 } } 2).1
    { user_sleep_multiplier := 3 } rfl (by norm_num) (by norm_num)

theorem parse_maxtries_go_ok (tokens : List MaxtriesToken) (ndx : Nat)
    (ok : Bool) (caps : List Int) :
    (parse_maxtries_go tokens ndx ok caps).1 =
      (ok && tokens.all (fun t =>
        match t with
        | .num n => decide (0 ≤ n) && decide (n ≤ MAX_MAX_TRIES)
        | .dot => true
        | .empty => true
        | .bad => false)) := by
  induction tokens generalizing ndx ok caps with
  | nil => simp [parse_maxtries_go]
  | cons t rest ih =>
    cases t with
    | num n =>
      simp only [parse_maxtries_go]
      split_ifs with h1 h2 <;>
        simp only [ih, List.all_cons] <;>
        [skip; skip; skip] <;>
        first
        | (rw [show (decide (0 ≤ n) && decide (n ≤ MAX_MAX_TRIES)) = false by
              simp; omega])
          simp
        | (rw [show (decide (0 ≤ n) && decide (n ≤ MAX_MAX_TRIES)) = true by
              simp; omega])
          simp
    | dot => simp only [parse_maxtries_go, ih, List.all_cons]; simp
    | empty => simp only [parse_maxtries_go, ih, List.all_cons]; simp
    | bad => simp only [parse_maxtries_go, ih, List.all_cons]; simp

theorem parse_maxtries_go_caps_lt (tokens : List MaxtriesToken) (ndx : Nat)
    (ok : Bool) (caps : List Int) (m : Nat) (hm : m < ndx) :
    (parse_maxtries_go tokens ndx ok caps).2.get? m = caps.get? m := by
  induction tokens generalizing ndx ok caps with
  | nil => rfl
  | cons t rest ih =>
    cases t with
    | num n =>
      simp only [parse_maxtries_go]
      split_ifs with h1 h2
      · exact ih (ndx + 1) false caps (by omega)
      · exact ih (ndx + 1) false caps (by omega)
      · rw [ih (ndx + 1) ok _ (by omega), List.get?_set_ne _ _ (by omega)]
    | dot => exact ih (ndx + 1) ok caps (by omega)
    | empty => exact ih (ndx + 1) ok caps (by omega)
    | bad => exact ih (ndx + 1) false caps (by omega)

theorem parse_maxtries_go_caps (tokens : List MaxtriesToken) (ndx : Nat)
    (ok : Bool) (caps : List Int) (i : Nat) (hi : i < tokens.length)
    (hlen : ndx + tokens.length ≤ caps.length) :
    (parse_maxtries_go tokens ndx ok caps).2.get? (ndx + i) =
      match tokens.get? i with
      | some (.num n) =>
        if 0 ≤ n ∧ n ≤ MAX_MAX_TRIES then some n else caps.get? (ndx + i)
      | _ => caps.get? (ndx + i) := by
  induction tokens generalizing ndx ok caps i with
  | nil => simp at hi
  | cons t rest ih =>
    cases i with
    | zero =>
      cases t with
      | num n =>
        simp only [parse_maxtries_go, List.get?_cons_zero, Nat.add_zero]
        by_cases h1 : MAX_MAX_TRIES < n
        · rw [if_pos h1, parse_maxtries_go_caps_lt rest (ndx + 1) false caps ndx (by omega),
              if_neg (show ¬ (0 ≤ n ∧ n ≤ MAX_MAX_TRIES) by omega)]
        · by_cases h2 : n < 0
          · rw [if_neg h1, if_pos h2,
                parse_maxtries_go_caps_lt rest (ndx + 1) false caps ndx (by omega),
                if_neg (show ¬ (0 ≤ n ∧ n ≤ MAX_MAX_TRIES) by omega)]
          · have hndx : ndx < caps.length := by
              simp only [List.length_cons] at hlen
              omega
            rw [if_neg h1, if_neg h2,
                parse_maxtries_go_caps_lt rest (ndx + 1) ok (caps.set ndx n) ndx (by omega),
                if_pos (show 0 ≤ n ∧ n ≤ MAX_MAX_TRIES by omega),
                List.get?_set_eq_of_lt _ hndx]
      | dot =>
        simp only [parse_maxtries_go, List.get?_cons_zero]
        exact parse_maxtries_go_caps_lt rest (ndx + 1) ok caps ndx (by omega)
      | empty =>
        simp only [parse_maxtries_go, List.get?_cons_zero]
        exact parse_maxtries_go_caps_lt rest (ndx + 1) ok caps ndx (by omega)
      | bad =>
        simp only [parse_maxtries_go, List.get?_cons_zero]
        exact parse_maxtries_go_caps_lt rest (ndx + 1) false caps ndx (by omega)
    | succ i =>
      have hi' : i < rest.length := by
        simp only [List.length_cons] at hi
        omega
      have harith : ndx + (i + 1) = (ndx + 1) + i := by omega
      cases t with
      | num n =>
        simp only [parse_maxtries_go, List.get?_cons_succ]
        split_ifs with h1 h2
        · rw [harith, ih (ndx + 1) false caps i hi'
            (by simp only [List.length_cons] at hlen; omega), ← harith]
        · rw [harith, ih (ndx + 1) false caps i hi'
            (by simp only [List.length_cons] at hlen; omega), ← harith]
        · rw [harith, ih (ndx + 1) ok (caps.set ndx n) i hi'
            (by simp only [List.length_cons] at hlen; simp; omega)]
          rw [List.get?_set_ne _ _ (by omega), ← harith]
      | dot =>
        simp only [parse_maxtries_go, List.get?_cons_succ]
        rw [harith, ih (ndx + 1) ok caps i hi'
          (by simp only [List.length_cons] at hlen; omega), ← harith]
      | empty =>
        simp only [parse_maxtries_go, List.get?_cons_succ]
        rw [harith, ih (ndx + 1) ok caps i hi'
          (by simp only [List.length_cons] at hlen; omega), ← harith]
      | bad =>
        simp only [parse_maxtries_go, List.get?_cons_succ]
        rw [harith, ih (ndx + 1) false caps i hi'
          (by simp only [List.length_cons] at hlen; omega), ← harith]

/-- C8 counterexample: the token value 0 is outside the claimed range
[1, 15], yet parse_maxtrywork accepts maxtries=0,.,. (the code only rejects
values that are negative or above MAX_MAX_TRIES) and stores 0 as the
write-only retry cap. -/
theorem claim_C8_counterexample : ¬ ClaimC8Prop := by
  intro h
  exact absurd
    (h [MaxtriesToken.num 0, MaxtriesToken.dot, MaxtriesToken.dot] [4, 6, 8] 0 0 rfl
      (by omega))
    (by decide)

/-- C8 (amended): for a maxtries option value of exactly three tokens,
parsing succeeds iff no token is malformed and every numeric token lies in
[0, MAX_MAX_TRIES = 15] (zero included: the code rejects only negative
values and values above the cap); a numeric token in range sets the
corresponding per-class cap to its value, and a "." or empty token leaves
the class default unchanged. -/
theorem claim_C8 (tokens : List MaxtriesToken) (caps : List Int)
    (h3 : tokens.length = 3) (hc : caps.length = 3) :
    ((parse_maxtrywork tokens caps).1 = true ↔
      ∀ t ∈ tokens, t ≠ MaxtriesToken.bad ∧
        ∀ n, t = MaxtriesToken.num n → 0 ≤ n ∧ n ≤ MAX_MAX_TRIES) ∧
    (∀ i n, tokens.get? i = some (MaxtriesToken.num n) →
      0 ≤ n → n ≤ MAX_MAX_TRIES →
      (parse_maxtrywork tokens caps).2.get? i = some n) ∧
    (∀ i t, tokens.get? i = some t →
      (t = MaxtriesToken.dot ∨ t = MaxtriesToken.empty) →
      (parse_maxtrywork tokens caps).2.get? i = caps.get? i) := by
  have hget_lt : ∀ (i : Nat) (t : MaxtriesToken), tokens.get? i = some t →
      i < tokens.length := by
    intro i t hget
    by_contra hge
    rw [List.get?_eq_none.mpr (by omega)] at hget
    simp at hget
  refine ⟨?_, ?_, ?_⟩
  · rw [parse_maxtrywork, if_pos h3, parse_maxtries_go_ok]
    simp only [Bool.true_and, List.all_eq_true]
    constructor
    · intro hall t ht
      have := hall t ht
      cases t with
      | num n =>
        simp only [Bool.and_eq_true, decide_eq_true_eq] at this
        exact ⟨by simp, fun n' hn' => by
          cases hn'
          exact this⟩
      | dot => exact ⟨by simp, fun n' hn' => by cases hn'⟩
      | empty => exact ⟨by simp, fun n' hn' => by cases hn'⟩
      | bad => simp at this
    · intro hall t ht
      have := hall t ht
      cases t with
      | num n =>
        simp only [Bool.and_eq_true, decide_eq_true_eq]
        exact (this.2 n rfl)
      | dot => rfl
      | empty => rfl
      | bad => exact absurd rfl this.1
  · intro i n hget h0 h15
    have hi := hget_lt i _ hget
    rw [parse_maxtrywork, if_pos h3]
    have := parse_maxtries_go_caps tokens 0 true caps i hi (by omega)
    simp only [Nat.zero_add] at this
    rw [this, hget]
    show (if 0 ≤ n ∧ n ≤ MAX_MAX_TRIES then some n else caps.get? i) = some n
    rw [if_pos ⟨h0, h15⟩]
  · intro i t hget hdot
    have hi := hget_lt i _ hget
    rw [parse_maxtrywork, if_pos h3]
    have := parse_maxtries_go_caps tokens 0 true caps i hi (by omega)
    simp only [Nat.zero_add] at this
    rw [this, hget]
    rcases hdot with h | h <;> subst h <;> rfl

theorem claim_C8_witness :
    (parse_maxtrywork [MaxtriesToken.num 5, MaxtriesToken.dot, MaxtriesToken.num 15]
      [4, 6, 8]).1 = true :=
  ((claim_C8 [MaxtriesToken.num 5, MaxtriesToken.dot, MaxtriesToken.num 15]
      [4, 6, 8] rfl rfl).1).mpr (by
    intro t ht
    fin_cases ht
    · exact ⟨by decide, fun n hn => by cases hn; exact (by decide)⟩
    · exact ⟨by decide, fun n hn => by cases hn⟩
    · exact ⟨by decide, fun n hn => by cases hn; exact (by decide)⟩)

theorem claim_C6_witness :
    dialect_flag_count (ddc_initial_checks_by_dh {} .i2c
      (VcpProbe.err DDCRC_REPORTED_UNSUPPORTED []) (VcpProbe.ok 0 0 0 0)
      (VcpProbe.ok 0 0 0 0) false) = 1 :=
  (claim_C6 (VcpProbe.err DDCRC_REPORTED_UNSUPPORTED []) (VcpProbe.ok 0 0 0 0)
      (VcpProbe.ok 0 0 0 0) false (by decide) trivial trivial).1 (by decide)

end Ddcutil
